import Mathlib

/-!
Shallow embedding of the `argocd-mcp-server` repository (Python) in Lean 4.

Source files embedded:
* `argocd_mcp_server/client.py`   — configuration loading and the ArgoCD REST client
* `argocd_mcp_server/server.py`   — stdio transport: tool catalog and tool dispatcher
* `argocd_mcp_server/http_server.py` — HTTP transport: duplicated catalog/dispatcher and
  the `/mcp` JSON-RPC endpoint

JSON values are modelled by the inductive `JVal` (numbers as `Int`; the repository
never manipulates fractional numbers).  Python dictionaries keep insertion order, so
JSON objects are association lists.  Python exceptions are modelled by
`Except String`: the carried string stands for `str(e)` of the raised exception.
Exact wording of interpreter-generated messages (`KeyError`, `AttributeError`,
`TypeError`) is approximated; the repository only ever forwards these strings
verbatim into `"Error: {message}"` text blocks, so no claim depends on their wording.
-/

/-- A JSON value, as produced by `response.json()` / consumed by `json.dumps`. -/
inductive JVal where
  | str (s : String)
  | bool (b : Bool)
  | num (n : Int)
  | null
  | arr (elems : List JVal)
  | obj (fields : List (String × JVal))

/-- Python type name of a value, used in interpreter error messages. -/
def pyTypeName : JVal → String
  | .str _ => "str"
  | .bool _ => "bool"
  | .num _ => "int"
  | .null => "NoneType"
  | .arr _ => "list"
  | .obj _ => "dict"

/-- Python truthiness (`bool(v)`): `None`, `False`, `0`, `""`, `[]`, `{}` are falsy. -/
def jTruthy : JVal → Bool
  | .str s => s ≠ ""
  | .bool b => b
  | .num n => n ≠ 0
  | .null => false
  | .arr xs => !xs.isEmpty
  | .obj fs => !fs.isEmpty

mutual

def JVal.deq : (a b : JVal) → Decidable (a = b)
  | .str s, .str t =>
    match String.decEq s t with
    | isTrue h => isTrue (by rw [h])
    | isFalse h => isFalse (fun hh => h (JVal.str.inj hh))
  | .bool a, .bool b =>
    match instDecidableEqBool a b with
    | isTrue h => isTrue (by rw [h])
    | isFalse h => isFalse (fun hh => h (JVal.bool.inj hh))
  | .num a, .num b =>
    match Int.decEq a b with
    | isTrue h => isTrue (by rw [h])
    | isFalse h => isFalse (fun hh => h (JVal.num.inj hh))
  | .null, .null => isTrue rfl
  | .arr xs, .arr ys =>
    match JVal.deqList xs ys with
    | isTrue h => isTrue (by rw [h])
    | isFalse h => isFalse (fun hh => h (JVal.arr.inj hh))
  | .obj fs, .obj gs =>
    match JVal.deqFields fs gs with
    | isTrue h => isTrue (by rw [h])
    | isFalse h => isFalse (fun hh => h (JVal.obj.inj hh))
  | .str _, .bool _ => isFalse (fun h => JVal.noConfusion h)
  | .str _, .num _ => isFalse (fun h => JVal.noConfusion h)
  | .str _, .null => isFalse (fun h => JVal.noConfusion h)
  | .str _, .arr _ => isFalse (fun h => JVal.noConfusion h)
  | .str _, .obj _ => isFalse (fun h => JVal.noConfusion h)
  | .bool _, .str _ => isFalse (fun h => JVal.noConfusion h)
  | .bool _, .num _ => isFalse (fun h => JVal.noConfusion h)
  | .bool _, .null => isFalse (fun h => JVal.noConfusion h)
  | .bool _, .arr _ => isFalse (fun h => JVal.noConfusion h)
  | .bool _, .obj _ => isFalse (fun h => JVal.noConfusion h)
  | .num _, .str _ => isFalse (fun h => JVal.noConfusion h)
  | .num _, .bool _ => isFalse (fun h => JVal.noConfusion h)
  | .num _, .null => isFalse (fun h => JVal.noConfusion h)
  | .num _, .arr _ => isFalse (fun h => JVal.noConfusion h)
  | .num _, .obj _ => isFalse (fun h => JVal.noConfusion h)
  | .null, .str _ => isFalse (fun h => JVal.noConfusion h)
  | .null, .bool _ => isFalse (fun h => JVal.noConfusion h)
  | .null, .num _ => isFalse (fun h => JVal.noConfusion h)
  | .null, .arr _ => isFalse (fun h => JVal.noConfusion h)
  | .null, .obj _ => isFalse (fun h => JVal.noConfusion h)
  | .arr _, .str _ => isFalse (fun h => JVal.noConfusion h)
  | .arr _, .bool _ => isFalse (fun h => JVal.noConfusion h)
  | .arr _, .num _ => isFalse (fun h => JVal.noConfusion h)
  | .arr _, .null => isFalse (fun h => JVal.noConfusion h)
  | .arr _, .obj _ => isFalse (fun h => JVal.noConfusion h)
  | .obj _, .str _ => isFalse (fun h => JVal.noConfusion h)
  | .obj _, .bool _ => isFalse (fun h => JVal.noConfusion h)
  | .obj _, .num _ => isFalse (fun h => JVal.noConfusion h)
  | .obj _, .null => isFalse (fun h => JVal.noConfusion h)
  | .obj _, .arr _ => isFalse (fun h => JVal.noConfusion h)

def JVal.deqList : (a b : List JVal) → Decidable (a = b)
  | [], [] => isTrue rfl
  | [], _ :: _ => isFalse (fun h => List.noConfusion h)
  | _ :: _, [] => isFalse (fun h => List.noConfusion h)
  | x :: xs, y :: ys =>
    match JVal.deq x y with
    | isFalse h => isFalse (fun hh => h (List.cons.inj hh).1)
    | isTrue h1 =>
      match JVal.deqList xs ys with
      | isTrue h2 => isTrue (by rw [h1, h2])
      | isFalse h => isFalse (fun hh => h (List.cons.inj hh).2)

def JVal.deqFields : (a b : List (String × JVal)) → Decidable (a = b)
  | [], [] => isTrue rfl
  | [], _ :: _ => isFalse (fun h => List.noConfusion h)
  | _ :: _, [] => isFalse (fun h => List.noConfusion h)
  | (k, v) :: xs, (l, w) :: ys =>
    match String.decEq k l with
    | isFalse h => isFalse (fun hh => h (congrArg Prod.fst (List.cons.inj hh).1))
    | isTrue hk =>
      match JVal.deq v w with
      | isFalse h => isFalse (fun hh => h (congrArg Prod.snd (List.cons.inj hh).1))
      | isTrue hv =>
        match JVal.deqFields xs ys with
        | isTrue h2 => isTrue (by rw [hk, hv, h2])
        | isFalse h => isFalse (fun hh => h (List.cons.inj hh).2)

end

instance : DecidableEq JVal := JVal.deq

mutual

/-- Python `repr` of a value (string escaping inside `repr` is approximated). -/
def pyRepr : JVal → String
  | .str s => "\x27" ++ s ++ "\x27"
  | .bool true => "True"
  | .bool false => "False"
  | .num n => toString n
  | .null => "None"
  | .arr xs => "[" ++ pyReprList xs ++ "]"
  | .obj fs => "\x7b" ++ pyReprFields fs ++ "\x7d"

def pyReprList : List JVal → String
  | [] => ""
  | [x] => pyRepr x
  | x :: xs => pyRepr x ++ ", " ++ pyReprList xs

def pyReprFields : List (String × JVal) → String
  | [] => ""
  | [(k, v)] => "\x27" ++ k ++ "\x27: " ++ pyRepr v
  | (k, v) :: fs => "\x27" ++ k ++ "\x27: " ++ pyRepr v ++ ", " ++ pyReprFields fs

end

/-- Python `str(v)` as used by f-string interpolation. -/
def pyStr : JVal → String
  | .str s => s
  | v => pyRepr v

/-- `v.get(k, d)` on a Python dict; raises `AttributeError` on non-dicts. -/
def pyGetD (v : JVal) (k : String) (d : JVal) : Except String JVal :=
  match v with
  | .obj fs => .ok ((fs.lookup k).getD d)
  | other => .error ("\x27" ++ pyTypeName other ++ "\x27 object has no attribute \x27get\x27")

/-- `v[k]` on a Python dict; raises `KeyError` (whose `str` is the quoted key) when
the key is absent, and `TypeError` on non-dicts. -/
def pySub (v : JVal) (k : String) : Except String JVal :=
  match v with
  | .obj fs =>
    match fs.lookup k with
    | some x => .ok x
    | none => .error ("\x27" ++ k ++ "\x27")
  | other => .error ("\x27" ++ pyTypeName other ++ "\x27 object is not subscriptable")

/-- Python `len(v)`; raises `TypeError` on unsized values. -/
def pyLen (v : JVal) : Except String Nat :=
  match v with
  | .str s => .ok s.length
  | .arr xs => .ok xs.length
  | .obj fs => .ok fs.length
  | other => .error ("object of type \x27" ++ pyTypeName other ++ "\x27 has no len()")

/-- Python `for x in v`: lists yield elements, dicts yield keys, strings yield
one-character strings; other values raise `TypeError`. -/
def pyIter (v : JVal) : Except String (List JVal) :=
  match v with
  | .arr xs => .ok xs
  | .obj fs => .ok (fs.map (fun kv => JVal.str kv.1))
  | .str s => .ok (s.data.map (fun c => JVal.str (String.singleton c)))
  | other => .error ("\x27" ++ pyTypeName other ++ "\x27 object is not iterable")

/-- JSON string escaping as done by `json.dumps` (`\uXXXX` escapes for control and
non-ASCII characters are approximated by the literal character; the repository
never inspects the escaped output). -/
def jsonEscapeChar (c : Char) : String :=
  if c = '"' then "\\\""
  else if c = '\\' then "\\\\"
  else if c = '\n' then "\\n"
  else if c = '\t' then "\\t"
  else if c = '\r' then "\\r"
  else String.singleton c

def jsonQuote (s : String) : String :=
  "\"" ++ s.foldl (fun acc c => acc ++ jsonEscapeChar c) "" ++ "\""

def indentSpaces (n : Nat) : String := String.mk (List.replicate n ' ')

mutual

/-- `json.dumps(v, indent=2)`, at current indentation depth `n`. -/
def jsonDumpsAt (n : Nat) : JVal → String
  | .str s => jsonQuote s
  | .bool true => "true"
  | .bool false => "false"
  | .num i => toString i
  | .null => "null"
  | .arr [] => "[]"
  | .arr (x :: xs) => "[\n" ++ jsonDumpsArr (n + 2) (x :: xs) ++ "\n" ++ indentSpaces n ++ "]"
  | .obj [] => "\x7b\x7d"
  | .obj (f :: fs) => "\x7b\n" ++ jsonDumpsObj (n + 2) (f :: fs) ++ "\n" ++ indentSpaces n ++ "\x7d"

def jsonDumpsArr (n : Nat) : List JVal → String
  | [] => ""
  | [x] => indentSpaces n ++ jsonDumpsAt n x
  | x :: xs => indentSpaces n ++ jsonDumpsAt n x ++ ",\n" ++ jsonDumpsArr n xs

def jsonDumpsObj (n : Nat) : List (String × JVal) → String
  | [] => ""
  | [(k, v)] => indentSpaces n ++ jsonQuote k ++ ": " ++ jsonDumpsAt n v
  | (k, v) :: fs => indentSpaces n ++ jsonQuote k ++ ": " ++ jsonDumpsAt n v ++ ",\n" ++ jsonDumpsObj n fs

end

/-- `json.dumps(v, indent=2)` as used by both dispatchers. -/
def jsonDumps (v : JVal) : String := jsonDumpsAt 0 v

/-!
## `client.py` — configuration and the ArgoCD REST client

The process environment is an association list.  `os.getenv` returns `None`
(modelled as `Option.none`) for unset variables.
-/

def Env : Type := List (String × String)

/-- Python `str.lower()` (ASCII case folding suffices for this repository's
uses: `"true"/"false"` flags). -/
def pyLower (s : String) : String := String.mk (s.data.map Char.toLower)

def getenv (env : Env) (k : String) : Option String := List.lookup k env

/-- Python truthiness of an `Optional[str]`: `None` and `""` are falsy. -/
def optStrTruthy : Option String → Bool
  | none => false
  | some s => s ≠ ""

structure ArgoCDConfig where
  server : String
  token : String
  insecure : Bool
deriving DecidableEq

/-- `ArgoCDConfig.from_env`: reads `ARGOCD_SERVER`, `ARGOCD_TOKEN`,
`ARGOCD_INSECURE` and raises `ValueError` when server or token is unset or
empty. -/
def ArgoCDConfig.from_env (env : Env) : Except String ArgoCDConfig :=
  let server := getenv env "ARGOCD_SERVER"
  let token := getenv env "ARGOCD_TOKEN"
  let insecure := pyLower ((getenv env "ARGOCD_INSECURE").getD "false") == "true"
  if optStrTruthy server = false then
    .error "ARGOCD_SERVER environment variable is required"
  else if optStrTruthy token = false then
    .error "ARGOCD_TOKEN environment variable is required"
  else
    .ok ⟨server.getD "", token.getD "", insecure⟩

/-- One outbound HTTP request as issued by `ArgoCDClient._request`: the HTTP
method, the path below `https://{server}/api/v1`, the query parameters and the
optional JSON body.  (The fixed bearer-token headers, the 30-second timeout and
TLS verification are connection furniture carried by every request alike and
are not part of the per-call data.) -/
structure Request where
  verb : String
  path : String
  params : List (String × JVal)
  jsonBody : Option (List (String × JVal))
deriving DecidableEq

/-- Behaviour of the remote controller: what `_request` produces for a given
request — parsed JSON on a 2xx response, or the raised exception's message
(`HTTPStatusError` from `raise_for_status`, or a transport error). -/
def Remote : Type := Request → Except String JVal

namespace ArgoCDClient

/-- `ArgoCDClient._request`: issues exactly one HTTP request and returns its
outcome.  The first component logs the requests issued. -/
def request_raw (rm : Remote) (verb path : String) (params : List (String × JVal))
    (jsonBody : Option (List (String × JVal))) : List Request × Except String JVal :=
  ([⟨verb, path, params, jsonBody⟩], rm ⟨verb, path, params, jsonBody⟩)

/-- `list_applications(project, selector)`: truthy filters become query
parameters; the result is `response.json().get("items", [])`. -/
def list_applications (rm : Remote) (project selector : JVal) : List Request × Except String JVal :=
  let params :=
    (if jTruthy project then [("project", project)] else []) ++
    (if jTruthy selector then [("selector", selector)] else [])
  match request_raw rm "GET" "/applications" params none with
  | (log, .error e) => (log, .error e)
  | (log, .ok result) => (log, pyGetD result "items" (.arr []))

/-- `get_application(name)`. -/
def get_application (rm : Remote) (name : JVal) : List Request × Except String JVal :=
  request_raw rm "GET" ("/applications/" ++ pyStr name) [] none

/-- `sync_application(name, prune=False, dry_run=False, revision=None)`: the JSON
body always carries `prune` and `dryRun`, and carries `revision` only when the
revision argument is truthy. -/
def sync_application (rm : Remote) (name prune dry_run revision : JVal) :
    List Request × Except String JVal :=
  let payload := [("prune", prune), ("dryRun", dry_run)] ++
    (if jTruthy revision then [("revision", revision)] else [])
  request_raw rm "POST" ("/applications/" ++ pyStr name ++ "/sync") [] (some payload)

/-- `get_application_manifests(name)`. -/
def get_application_manifests (rm : Remote) (name : JVal) : List Request × Except String JVal :=
  request_raw rm "GET" ("/applications/" ++ pyStr name ++ "/manifests") [] none

/-- `get_sync_history(name)`: calls `get_application` and extracts
`app.get("status", {}).get("history", [])`. -/
def get_sync_history (rm : Remote) (name : JVal) : List Request × Except String JVal :=
  match get_application rm name with
  | (log, .error e) => (log, .error e)
  | (log, .ok app) =>
    (log,
      match pyGetD app "status" (.obj []) with
      | .error e => .error e
      | .ok status => pyGetD status "history" (.arr []))

/-- `rollback_application(name, revision)`. -/
def rollback_application (rm : Remote) (name revision : JVal) : List Request × Except String JVal :=
  request_raw rm "POST" ("/applications/" ++ pyStr name ++ "/rollback") []
    (some [("revision", revision)])

/-- `delete_application(name, cascade=True)`: `cascade` is stringified and
lowercased into a query parameter. -/
def delete_application (rm : Remote) (name cascade : JVal) : List Request × Except String JVal :=
  request_raw rm "DELETE" ("/applications/" ++ pyStr name)
    [("cascade", .str (pyLower (pyStr cascade)))] none

/-- `list_projects()`. -/
def list_projects (rm : Remote) : List Request × Except String JVal :=
  match request_raw rm "GET" "/projects" [] none with
  | (log, .error e) => (log, .error e)
  | (log, .ok result) => (log, pyGetD result "items" (.arr []))

/-- `get_cluster_info()`. -/
def get_cluster_info (rm : Remote) : List Request × Except String JVal :=
  request_raw rm "GET" "/clusters" [] none

end ArgoCDClient

/-!
## `server.py` — stdio transport: catalog and dispatcher

`mcp.types.TextContent(type="text", text=...)` is the content block of the stdio
transport; `mcp.types.Tool` is a tool descriptor.
-/

structure TextContent where
  type : String
  text : String
deriving DecidableEq

structure MCPTool where
  name : String
  description : String
  inputSchema : JVal

/-- Iterating a Python `for` loop that appends text to an accumulator, where
producing each item's text may raise. -/
def textFold (T : JVal → Except String String) : List JVal → String → Except String String
  | [], acc => .ok acc
  | x :: xs, acc =>
    match T x with
    | .error e => .error e
    | .ok s => textFold T xs (acc ++ s)

namespace Server

/-- `format_application_summary(app)` from `server.py` (also imported by
`http_server.py`): seven `Field: value` lines and a trailing newline, with
`"unknown"` substituted for absent fields. -/
def format_application_summary (app : JVal) : Except String String :=
  Except.bind (pyGetD app "metadata" (.obj [])) fun metadata =>
  Except.bind (pyGetD app "spec" (.obj [])) fun spec =>
  Except.bind (pyGetD app "status" (.obj [])) fun status =>
  Except.bind (pyGetD metadata "name" (.str "unknown")) fun nm =>
  Except.bind (pyGetD metadata "namespace" (.str "unknown")) fun ns =>
  Except.bind (pyGetD spec "source" (.obj [])) fun source =>
  Except.bind (pyGetD source "repoURL" (.str "unknown")) fun repo_url =>
  Except.bind (pyGetD source "path" (.str "unknown")) fun path =>
  Except.bind (pyGetD source "targetRevision" (.str "unknown")) fun target_revision =>
  Except.bind (pyGetD status "sync" (.obj [])) fun sync0 =>
  Except.bind (pyGetD sync0 "status" (.str "unknown")) fun sync_status =>
  Except.bind (pyGetD status "health" (.obj [])) fun health0 =>
  Except.bind (pyGetD health0 "status" (.str "unknown")) fun health_status =>
  .ok ("Application: " ++ pyStr nm ++
    "\nNamespace: " ++ pyStr ns ++
    "\nRepository: " ++ pyStr repo_url ++
    "\nPath: " ++ pyStr path ++
    "\nRevision: " ++ pyStr target_revision ++
    "\nSync Status: " ++ pyStr sync_status ++
    "\nHealth Status: " ++ pyStr health_status ++ "\n")

/-- The static tool catalog returned by the stdio transport's `list_tools`. -/
def list_tools : List MCPTool :=
  [⟨"list_applications",
    "List all ArgoCD applications with optional filtering by project or selector",
    .obj [("type", .str "object"),
      ("properties", .obj [
        ("project", .obj [("type", .str "string"),
          ("description", .str "Filter applications by project name")]),
        ("selector", .obj [("type", .str "string"),
          ("description", .str "Filter applications by label selector (e.g., \x27app=myapp\x27)")])])]⟩,
   ⟨"get_application",
    "Get detailed information about a specific ArgoCD application",
    .obj [("type", .str "object"),
      ("properties", .obj [
        ("name", .obj [("type", .str "string"), ("description", .str "Application name")])]),
      ("required", .arr [.str "name"])]⟩,
   ⟨"sync_application",
    "Trigger synchronization of an ArgoCD application",
    .obj [("type", .str "object"),
      ("properties", .obj [
        ("name", .obj [("type", .str "string"), ("description", .str "Application name")]),
        ("prune", .obj [("type", .str "boolean"),
          ("description", .str "Prune resources that are no longer in git"),
          ("default", .bool false)]),
        ("dry_run", .obj [("type", .str "boolean"),
          ("description", .str "Preview sync without applying changes"),
          ("default", .bool false)]),
        ("revision", .obj [("type", .str "string"),
          ("description", .str "Specific git revision to sync to")])]),
      ("required", .arr [.str "name"])]⟩,
   ⟨"get_application_manifests",
    "Get the Kubernetes manifests for an application",
    .obj [("type", .str "object"),
      ("properties", .obj [
        ("name", .obj [("type", .str "string"), ("description", .str "Application name")])]),
      ("required", .arr [.str "name"])]⟩,
   ⟨"get_sync_history",
    "Get synchronization history for an application",
    .obj [("type", .str "object"),
      ("properties", .obj [
        ("name", .obj [("type", .str "string"), ("description", .str "Application name")])]),
      ("required", .arr [.str "name"])]⟩,
   ⟨"rollback_application",
    "Rollback an application to a previous revision",
    .obj [("type", .str "object"),
      ("properties", .obj [
        ("name", .obj [("type", .str "string"), ("description", .str "Application name")]),
        ("revision", .obj [("type", .str "string"),
          ("description", .str "Git revision to rollback to")])]),
      ("required", .arr [.str "name", .str "revision"])]⟩,
   ⟨"list_projects",
    "List all ArgoCD projects",
    .obj [("type", .str "object"), ("properties", .obj [])]⟩]

/-- Loop body for the `list_applications` summary: `summary +=
format_application_summary(app); summary += "\n"`. -/
def appItemText (app : JVal) : Except String String :=
  match format_application_summary app with
  | .error e => .error e
  | .ok s => .ok (s ++ "\n")

/-- Loop body for the `get_sync_history` summary. -/
def histItemText (entry : JVal) : Except String String :=
  Except.bind (pyGetD entry "revision" (.str "unknown")) fun revision =>
  Except.bind (pyGetD entry "deployedAt" (.str "unknown")) fun deployed_at =>
  .ok ("Revision: " ++ pyStr revision ++ "\n" ++ "Deployed At: " ++ pyStr deployed_at ++ "\n\n")

/-- Loop body for the `list_projects` summary. -/
def projItemText (project : JVal) : Except String String :=
  Except.bind (pyGetD project "metadata" (.obj [])) fun metadata =>
  Except.bind (pyGetD metadata "name" (.str "unknown")) fun nm =>
  .ok ("- " ++ pyStr nm ++ "\n")

/-- The `try` block of the stdio `call_tool`: everything that can raise. -/
def call_tool_body (rm : Remote) (name : String) (arguments : JVal) :
    Except String (List TextContent) :=
  if name == "list_applications" then
    Except.bind (pyGetD arguments "project" .null) fun project =>
    Except.bind (pyGetD arguments "selector" .null) fun selector =>
    Except.bind (ArgoCDClient.list_applications rm project selector).2 fun apps =>
    if jTruthy apps = false then .ok [⟨"text", "No applications found"⟩]
    else
      Except.bind (pyLen apps) fun n =>
      Except.bind (pyIter apps) fun items =>
      Except.bind (textFold appItemText items ("Found " ++ toString n ++ " application(s):\n\n"))
        fun summary =>
      .ok [⟨"text", summary⟩]
  else if name == "get_application" then
    Except.bind (pySub arguments "name") fun nm =>
    Except.bind (ArgoCDClient.get_application rm nm).2 fun app =>
    .ok [⟨"text", jsonDumps app⟩]
  else if name == "sync_application" then
    Except.bind (pySub arguments "name") fun nm =>
    Except.bind (pyGetD arguments "prune" (.bool false)) fun prune =>
    Except.bind (pyGetD arguments "dry_run" (.bool false)) fun dry_run =>
    Except.bind (pyGetD arguments "revision" .null) fun revision =>
    Except.bind (ArgoCDClient.sync_application rm nm prune dry_run revision).2 fun result =>
    Except.bind (pySub arguments "name") fun nm2 =>
    .ok [⟨"text", "Sync initiated for " ++ pyStr nm2 ++ "\n\n" ++ jsonDumps result⟩]
  else if name == "get_application_manifests" then
    Except.bind (pySub arguments "name") fun nm =>
    Except.bind (ArgoCDClient.get_application_manifests rm nm).2 fun manifests =>
    .ok [⟨"text", jsonDumps manifests⟩]
  else if name == "get_sync_history" then
    Except.bind (pySub arguments "name") fun nm =>
    Except.bind (ArgoCDClient.get_sync_history rm nm).2 fun history =>
    if jTruthy history = false then .ok [⟨"text", "No sync history found"⟩]
    else
      Except.bind (pySub arguments "name") fun nm2 =>
      Except.bind (pyIter history) fun entries =>
      Except.bind (textFold histItemText entries ("Sync history for " ++ pyStr nm2 ++ ":\n\n"))
        fun summary =>
      .ok [⟨"text", summary⟩]
  else if name == "rollback_application" then
    Except.bind (pySub arguments "name") fun nm =>
    Except.bind (pySub arguments "revision") fun revision =>
    Except.bind (ArgoCDClient.rollback_application rm nm revision).2 fun result =>
    Except.bind (pySub arguments "name") fun nm2 =>
    Except.bind (pySub arguments "revision") fun rev2 =>
    .ok [⟨"text", "Rollback initiated for " ++ pyStr nm2 ++ " to revision " ++ pyStr rev2 ++
      "\n\n" ++ jsonDumps result⟩]
  else if name == "list_projects" then
    Except.bind (ArgoCDClient.list_projects rm).2 fun projects =>
    if jTruthy projects = false then .ok [⟨"text", "No projects found"⟩]
    else
      Except.bind (pyLen projects) fun n =>
      Except.bind (pyIter projects) fun items =>
      Except.bind (textFold projItemText items ("Found " ++ toString n ++ " project(s):\n\n"))
        fun summary =>
      .ok [⟨"text", summary⟩]
  else
    .ok [⟨"text", "Unknown tool: " ++ name⟩]

/-- The stdio `call_tool`: the `try` block with its catch-all `except`, which
turns any raised exception into a single `"Error: {message}"` text block. -/
def call_tool (rm : Remote) (name : String) (arguments : JVal) : List TextContent :=
  match call_tool_body rm name arguments with
  | .ok blocks => blocks
  | .error e => [⟨"text", "Error: " ++ e⟩]

end Server

/-- `create_server()` in `server.py` loads the configuration before registering
handlers; a `ValueError` from `from_env` prints a diagnostic to stderr and calls
`sys.exit(1)`. -/
inductive StdioStart where
  | exited (diagnostic : String)
  | serving (config : ArgoCDConfig)
deriving DecidableEq

def Server.create_server (env : Env) : StdioStart :=
  match ArgoCDConfig.from_env env with
  | .error e => .exited ("Configuration error: " ++ e)
  | .ok config => .serving config

/-!
## `http_server.py` — HTTP transport: duplicated catalog/dispatcher and `/mcp`

Content blocks here are plain JSON dicts `{"type": "text", "text": ...}`.
The lazily-created client singleton is initialized by the startup hook, which
re-raises any configuration error so the server never starts serving; a served
request therefore always has a working client, modelled by the `Remote`
parameter.
-/

namespace HttpServer

/-- The FastAPI `startup_event` hook: first use of `get_client()`; a
configuration failure propagates and startup fails. -/
def startup_event (env : Env) : Except String ArgoCDConfig :=
  ArgoCDConfig.from_env env

/-- A `{"type": "text", "text": s}` content block. -/
def jblock (s : String) : JVal :=
  .obj [("type", .str "text"), ("text", .str s)]

/-- Python `==` between an arbitrary value and a string literal: `False` unless
the value is that string. -/
def jEqStr : JVal → String → Bool
  | .str t, s => t == s
  | _, _ => false

/-- The static tool catalog returned by `list_tools_impl`. -/
def list_tools_impl : List JVal :=
  [.obj [("name", .str "list_applications"),
    ("description", .str "List all ArgoCD applications with optional filtering by project or selector"),
    ("inputSchema", .obj [("type", .str "object"),
      ("properties", .obj [
        ("project", .obj [("type", .str "string"),
          ("description", .str "Filter applications by project name")]),
        ("selector", .obj [("type", .str "string"),
          ("description", .str "Filter applications by label selector (e.g., \x27app=myapp\x27)")])])])],
   .obj [("name", .str "get_application"),
    ("description", .str "Get detailed information about a specific ArgoCD application"),
    ("inputSchema", .obj [("type", .str "object"),
      ("properties", .obj [
        ("name", .obj [("type", .str "string"), ("description", .str "Application name")])]),
      ("required", .arr [.str "name"])])],
   .obj [("name", .str "sync_application"),
    ("description", .str "Trigger synchronization of an ArgoCD application"),
    ("inputSchema", .obj [("type", .str "object"),
      ("properties", .obj [
        ("name", .obj [("type", .str "string"), ("description", .str "Application name")]),
        ("prune", .obj [("type", .str "boolean"),
          ("description", .str "Prune resources that are no longer in git"),
          ("default", .bool false)]),
        ("dry_run", .obj [("type", .str "boolean"),
          ("description", .str "Preview sync without applying changes"),
          ("default", .bool false)]),
        ("revision", .obj [("type", .str "string"),
          ("description", .str "Specific git revision to sync to")])]),
      ("required", .arr [.str "name"])])],
   .obj [("name", .str "get_application_manifests"),
    ("description", .str "Get the Kubernetes manifests for an application"),
    ("inputSchema", .obj [("type", .str "object"),
      ("properties", .obj [
        ("name", .obj [("type", .str "string"), ("description", .str "Application name")])]),
      ("required", .arr [.str "name"])])],
   .obj [("name", .str "get_sync_history"),
    ("description", .str "Get synchronization history for an application"),
    ("inputSchema", .obj [("type", .str "object"),
      ("properties", .obj [
        ("name", .obj [("type", .str "string"), ("description", .str "Application name")])]),
      ("required", .arr [.str "name"])])],
   .obj [("name", .str "rollback_application"),
    ("description", .str "Rollback an application to a previous revision"),
    ("inputSchema", .obj [("type", .str "object"),
      ("properties", .obj [
        ("name", .obj [("type", .str "string"), ("description", .str "Application name")]),
        ("revision", .obj [("type", .str "string"),
          ("description", .str "Git revision to rollback to")])]),
      ("required", .arr [.str "name", .str "revision"])])],
   .obj [("name", .str "list_projects"),
    ("description", .str "List all ArgoCD projects"),
    ("inputSchema", .obj [("type", .str "object"), ("properties", .obj [])])]]

/-- Loop body for the `list_applications` summary (duplicated from `server.py`;
`format_application_summary` itself is imported from there). -/
def appItemText (app : JVal) : Except String String :=
  match Server.format_application_summary app with
  | .error e => .error e
  | .ok s => .ok (s ++ "\n")

/-- Loop body for the `get_sync_history` summary. -/
def histItemText (entry : JVal) : Except String String :=
  Except.bind (pyGetD entry "revision" (.str "unknown")) fun revision =>
  Except.bind (pyGetD entry "deployedAt" (.str "unknown")) fun deployed_at =>
  .ok ("Revision: " ++ pyStr revision ++ "\n" ++ "Deployed At: " ++ pyStr deployed_at ++ "\n\n")

/-- Loop body for the `list_projects` summary. -/
def projItemText (project : JVal) : Except String String :=
  Except.bind (pyGetD project "metadata" (.obj [])) fun metadata =>
  Except.bind (pyGetD metadata "name" (.str "unknown")) fun nm =>
  .ok ("- " ++ pyStr nm ++ "\n")

/-- The `try` block of `call_tool_impl`.  The tool name arrives from
`params.get("name")` and so may be any JSON value; comparisons against the
catalogued names are Python `==`. -/
def call_tool_impl_body (rm : Remote) (name : JVal) (arguments : JVal) :
    Except String (List JVal) :=
  if jEqStr name "list_applications" then
    Except.bind (pyGetD arguments "project" .null) fun project =>
    Except.bind (pyGetD arguments "selector" .null) fun selector =>
    Except.bind (ArgoCDClient.list_applications rm project selector).2 fun apps =>
    if jTruthy apps = false then .ok [jblock "No applications found"]
    else
      Except.bind (pyLen apps) fun n =>
      Except.bind (pyIter apps) fun items =>
      Except.bind (textFold appItemText items ("Found " ++ toString n ++ " application(s):\n\n"))
        fun summary =>
      .ok [jblock summary]
  else if jEqStr name "get_application" then
    Except.bind (pySub arguments "name") fun nm =>
    Except.bind (ArgoCDClient.get_application rm nm).2 fun app =>
    .ok [jblock (jsonDumps app)]
  else if jEqStr name "sync_application" then
    Except.bind (pySub arguments "name") fun nm =>
    Except.bind (pyGetD arguments "prune" (.bool false)) fun prune =>
    Except.bind (pyGetD arguments "dry_run" (.bool false)) fun dry_run =>
    Except.bind (pyGetD arguments "revision" .null) fun revision =>
    Except.bind (ArgoCDClient.sync_application rm nm prune dry_run revision).2 fun result =>
    Except.bind (pySub arguments "name") fun nm2 =>
    .ok [jblock ("Sync initiated for " ++ pyStr nm2 ++ "\n\n" ++ jsonDumps result)]
  else if jEqStr name "get_application_manifests" then
    Except.bind (pySub arguments "name") fun nm =>
    Except.bind (ArgoCDClient.get_application_manifests rm nm).2 fun manifests =>
    .ok [jblock (jsonDumps manifests)]
  else if jEqStr name "get_sync_history" then
    Except.bind (pySub arguments "name") fun nm =>
    Except.bind (ArgoCDClient.get_sync_history rm nm).2 fun history =>
    if jTruthy history = false then .ok [jblock "No sync history found"]
    else
      Except.bind (pySub arguments "name") fun nm2 =>
      Except.bind (pyIter history) fun entries =>
      Except.bind (textFold histItemText entries ("Sync history for " ++ pyStr nm2 ++ ":\n\n"))
        fun summary =>
      .ok [jblock summary]
  else if jEqStr name "rollback_application" then
    Except.bind (pySub arguments "name") fun nm =>
    Except.bind (pySub arguments "revision") fun revision =>
    Except.bind (ArgoCDClient.rollback_application rm nm revision).2 fun result =>
    Except.bind (pySub arguments "name") fun nm2 =>
    Except.bind (pySub arguments "revision") fun rev2 =>
    .ok [jblock ("Rollback initiated for " ++ pyStr nm2 ++ " to revision " ++ pyStr rev2 ++
      "\n\n" ++ jsonDumps result)]
  else if jEqStr name "list_projects" then
    Except.bind (ArgoCDClient.list_projects rm).2 fun projects =>
    if jTruthy projects = false then .ok [jblock "No projects found"]
    else
      Except.bind (pyLen projects) fun n =>
      Except.bind (pyIter projects) fun items =>
      Except.bind (textFold projItemText items ("Found " ++ toString n ++ " project(s):\n\n"))
        fun summary =>
      .ok [jblock summary]
  else
    .ok [jblock ("Unknown tool: " ++ pyStr name)]

/-- `call_tool_impl`: the `try` block with its catch-all `except`. -/
def call_tool_impl (rm : Remote) (name : JVal) (arguments : JVal) : List JVal :=
  match call_tool_impl_body rm name arguments with
  | .ok blocks => blocks
  | .error e => [jblock ("Error: " ++ e)]

/-- A JSON-RPC response envelope emitted by the `/mcp` endpoint:
`{"jsonrpc": "2.0", "id": ..., "result": ...}` or
`{"jsonrpc": "2.0", "id": ..., "error": {"code": ..., "message": ...}}`. -/
inductive RpcResponse where
  | result (id : JVal) (res : JVal)
  | rpcError (id : JVal) (code : Int) (message : String)
deriving DecidableEq

/-- The fixed `initialize` result. -/
def initialize_result : JVal :=
  .obj [("protocolVersion", .str "2024-11-05"),
    ("capabilities", .obj [("tools", .obj [])]),
    ("serverInfo", .obj [("name", .str "argocd-mcp-server"), ("version", .str "0.1.0")])]

/-- The `try` block of `mcp_endpoint` after a successful `request.json()`:
decodes the method and dispatches.  `body.get(...)` raises `AttributeError`
when the parsed body is not a JSON object. -/
def mcp_main (rm : Remote) (body : JVal) : Except String RpcResponse :=
  Except.bind (pyGetD body "method" (.str "unknown")) fun method =>
  if jEqStr method "tools/list" then
    Except.bind (pyGetD body "id" .null) fun i =>
    .ok (.result i (.obj [("tools", .arr list_tools_impl)]))
  else if jEqStr method "tools/call" then
    Except.bind (pyGetD body "params" (.obj [])) fun params =>
    Except.bind (pyGetD params "name" .null) fun tool_name =>
    Except.bind (pyGetD params "arguments" (.obj [])) fun arguments =>
    Except.bind (pyGetD body "id" .null) fun i =>
    .ok (.result i (.obj [("content", .arr (call_tool_impl rm tool_name arguments))]))
  else if jEqStr method "initialize" then
    Except.bind (pyGetD body "id" .null) fun i =>
    .ok (.result i initialize_result)
  else
    Except.bind (pyGetD body "id" .null) fun i =>
    .ok (.result i (.obj [("status", .str "ok"), ("method", method)]))

/-- The whole `/mcp` handler.  Input: the outcome of `request.json()`.  Output:
`.ok` an envelope, or `.error` when the handler itself raises (the `except`
clause evaluates `body.get("id") if body else None`, which re-raises on a
truthy non-dict body and the exception escapes to the HTTP framework). -/
def mcp_endpoint (rm : Remote) (parsed : Except String JVal) : Except String RpcResponse :=
  match parsed with
  | .error e => .ok (.rpcError .null (-32603) e)
  | .ok body =>
    match mcp_main rm body with
    | .ok resp => .ok resp
    | .error e =>
      if jTruthy body then
        match pyGetD body "id" .null with
        | .error e2 => .error e2
        | .ok i => .ok (.rpcError i (-32603) e)
      else
        .ok (.rpcError .null (-32603) e)

end HttpServer

/-!
## Auxiliary definitions used by the statements
-/

/-- Rendering of a stdio text block as the HTTP transport's dict block. -/
def tcJson (t : TextContent) : JVal :=
  .obj [("type", .str t.type), ("text", .str t.text)]

/-- Total field lookup with default (no exceptions): spec-side reading of
`v.get(k, d)` on values known to be objects. -/
def jfieldD (v : JVal) (k : String) (d : JVal) : JVal :=
  match v with
  | .obj fs => (fs.lookup k).getD d
  | _ => d

def jIsObj : JVal → Bool
  | .obj _ => true
  | _ => false

/-- Well-formed application JSON in the sense of the spec's data model: a JSON
object whose `metadata`, `spec`, `status`, `spec.source`, `status.sync` and
`status.health` members are JSON objects once the code's `.get(k, {})`
defaults are applied — i.e. every value `format_application_summary` calls
`.get` on is a dict. -/
def wfApp (a : JVal) : Bool :=
  jIsObj a &&
  jIsObj (jfieldD a "metadata" (.obj [])) &&
  jIsObj (jfieldD a "spec" (.obj [])) &&
  jIsObj (jfieldD a "status" (.obj [])) &&
  jIsObj (jfieldD (jfieldD a "spec" (.obj [])) "source" (.obj [])) &&
  jIsObj (jfieldD (jfieldD a "status" (.obj [])) "sync" (.obj [])) &&
  jIsObj (jfieldD (jfieldD a "status" (.obj [])) "health" (.obj []))

/-- Modelled from the spec: the per-application summary block claimed in the
spec — `Field: value` lines for Application/Namespace/Repository/Path/Revision/
Sync Status/Health Status, each pulled from the corresponding JSON field with
`"unknown"` substituted for any missing field. -/
def specAppBlock (app : JVal) : String :=
  let metadata := jfieldD app "metadata" (.obj [])
  let spec := jfieldD app "spec" (.obj [])
  let status := jfieldD app "status" (.obj [])
  let source := jfieldD spec "source" (.obj [])
  "Application: " ++ pyStr (jfieldD metadata "name" (.str "unknown")) ++
  "\nNamespace: " ++ pyStr (jfieldD metadata "namespace" (.str "unknown")) ++
  "\nRepository: " ++ pyStr (jfieldD source "repoURL" (.str "unknown")) ++
  "\nPath: " ++ pyStr (jfieldD source "path" (.str "unknown")) ++
  "\nRevision: " ++ pyStr (jfieldD source "targetRevision" (.str "unknown")) ++
  "\nSync Status: " ++ pyStr (jfieldD (jfieldD status "sync" (.obj [])) "status" (.str "unknown")) ++
  "\nHealth Status: " ++ pyStr (jfieldD (jfieldD status "health" (.obj [])) "status" (.str "unknown")) ++
  "\n"

/-- Modelled from the spec: the full `list_applications` result text — exactly
`"No applications found"` when the sequence is empty, otherwise the
`"Found {n} application(s):"` header, a blank line, and the summary blocks each
followed by a separating newline. -/
def specListApplicationsText (apps : List JVal) : String :=
  if apps.isEmpty then "No applications found"
  else
    "Found " ++ toString apps.length ++ " application(s):\n\n" ++
      String.join (apps.map (fun a => specAppBlock a ++ "\n"))

/-- A remote that answers every request with JSON `null`. -/
def rmNull : Remote := fun _ => .ok .null

/-- A remote on which every request fails, e.g. a 404 response turned into an
`HTTPStatusError` by `raise_for_status`. -/
def rmBoom : Remote := fun _ => .error "Client error \x27404 Not Found\x27 for url"

/-- A remote answering every request with `{"items": [...]}`. -/
def rmItems (items : List JVal) : Remote := fun _ => .ok (.obj [("items", .arr items)])

/-- A remote answering every request with a fixed application object. -/
def rmApp (app : JVal) : Remote := fun _ => .ok app

/-- Whether an `/mcp` outcome is a successful JSON-RPC result envelope. -/
def isResultEnvelope : Except String HttpServer.RpcResponse → Bool
  | .ok (.result _ _) => true
  | _ => false

/-- The spec's "absent (or empty)" condition on a required environment
variable. -/
def envMissing (o : Option String) : Prop := o = none ∨ o = some ""

/-- The lines of a string, split at newline characters. -/
def strLines (s : String) : List String := (s.data.splitOn '\n').map String.mk

/-!
## Lemmas about the `Except` plumbing
-/

theorem ebind_congr {α β : Type} {x : Except String α} {g h : α → Except String β}
    (H : ∀ a, g a = h a) : Except.bind x g = Except.bind x h := by
  cases x with
  | error e => rfl
  | ok a => exact H a

theorem emap_bind {α β γ : Type} (f : β → γ) (x : Except String α)
    (g : α → Except String β) :
    Except.map f (Except.bind x g) = Except.bind x (fun a => Except.map f (g a)) := by
  cases x with
  | error e => rfl
  | ok a => rfl

theorem http_appItemText_eq : HttpServer.appItemText = Server.appItemText := rfl

theorem http_histItemText_eq : HttpServer.histItemText = Server.histItemText := rfl

theorem http_projItemText_eq : HttpServer.projItemText = Server.projItemText := rfl

/-- Branch-by-branch agreement of the two dispatchers' `try` blocks: the HTTP
dispatcher's blocks are exactly the stdio dispatcher's blocks rendered as
dicts. -/
theorem call_tool_impl_body_eq (rm : Remote) (name : String) (arguments : JVal) :
    HttpServer.call_tool_impl_body rm (.str name) arguments =
      Except.map (List.map tcJson) (Server.call_tool_body rm name arguments) := by
  unfold HttpServer.call_tool_impl_body Server.call_tool_body
  simp only [HttpServer.jEqStr, http_appItemText_eq, http_histItemText_eq, http_projItemText_eq]
  repeat' first
    | rfl
    | rw [emap_bind]
    | rw [apply_ite (Except.map (List.map tcJson))]
    | (apply ebind_congr; intro _)
    | split

/-!
## Lemmas about string accumulation
-/

theorem string_foldl_append (l : List String) :
    ∀ (a : String), l.foldl (· ++ ·) a = a ++ String.join l := by
  induction l with
  | nil => intro a; exact (String.append_empty a).symm
  | cons x xs ih =>
    intro a
    have hx : String.join (x :: xs) = x ++ String.join xs := by
      show List.foldl (· ++ ·) ("" ++ x) xs = x ++ String.join xs
      rw [String.empty_append, ih x]
    rw [hx]
    show List.foldl (· ++ ·) (a ++ x) xs = a ++ (x ++ String.join xs)
    rw [ih (a ++ x), String.append_assoc]

theorem string_join_cons (x : String) (xs : List String) :
    String.join (x :: xs) = x ++ String.join xs := by
  show List.foldl (· ++ ·) ("" ++ x) xs = x ++ String.join xs
  rw [String.empty_append, string_foldl_append]

/-- Running a loop whose every item text is known produces the accumulated
concatenation. -/
theorem textFold_ok (T : JVal → Except String String) (g : JVal → String) :
    ∀ (l : List JVal), (∀ a ∈ l, T a = .ok (g a)) → ∀ (init : String),
      textFold T l init = .ok (init ++ String.join (l.map g)) := by
  intro l
  induction l with
  | nil =>
    intro _ init
    unfold textFold
    rw [show String.join (List.map g []) = "" from rfl, String.append_empty]
  | cons x xs ih =>
    intro h init
    unfold textFold
    rw [h x (List.mem_cons_self x xs)]
    show textFold T xs (init ++ g x) = _
    rw [ih (fun a ha => h a (List.mem_cons_of_mem x ha)) (init ++ g x)]
    rw [List.map_cons, string_join_cons, String.append_assoc]

/-- A loop only ever appends: a successful run extends the initial
accumulator. -/
theorem textFold_extends (T : JVal → Except String String) :
    ∀ (l : List JVal) (init r : String), textFold T l init = .ok r → ∃ t, r = init ++ t := by
  intro l
  induction l with
  | nil =>
    intro init r h
    refine ⟨"", ?_⟩
    have : init = r := by
      unfold textFold at h
      exact (Except.ok.inj h)
    rw [← this, String.append_empty]
  | cons x xs ih =>
    intro init r h
    unfold textFold at h
    cases hT : T x with
    | error e => rw [hT] at h; exact absurd h (by intro hh; cases hh)
    | ok s =>
      rw [hT] at h
      obtain ⟨t, ht⟩ := ih (init ++ s) r h
      exact ⟨s ++ t, by rw [ht, String.append_assoc]⟩

theorem err_text_ne_nohist (x : String) : ¬ ("Error: " ++ x = "No sync history found") := by
  intro h
  have hd := congrArg String.data h
  rw [String.data_append] at hd
  rw [show "Error: ".data = ['E', 'r', 'r', 'o', 'r', ':', ' '] from rfl] at hd
  rw [show "No sync history found".data =
    ['N', 'o', ' ', 's', 'y', 'n', 'c', ' ', 'h', 'i', 's', 't', 'o', 'r', 'y', ' ',
     'f', 'o', 'u', 'n', 'd'] from rfl] at hd
  simp at hd

theorem ebind_ok {α β : Type} (x : α) (f : α → Except String β) :
    Except.bind (Except.ok x) f = f x := rfl

theorem pyGetD_of_isObj (v : JVal) (h : jIsObj v = true) (k : String) (d : JVal) :
    pyGetD v k d = .ok (jfieldD v k d) := by
  cases v <;> simp_all [pyGetD, jfieldD, jIsObj]

/-- On well-formed application JSON the summary formatter cannot raise and
produces exactly the spec's seven-line block. -/
theorem format_eq_spec (a : JVal) (h : wfApp a = true) :
    Server.format_application_summary a = .ok (specAppBlock a) := by
  unfold wfApp at h
  simp only [Bool.and_eq_true] at h
  obtain ⟨⟨⟨⟨⟨⟨h0, h1⟩, h2⟩, h3⟩, h4⟩, h5⟩, h6⟩ := h
  unfold Server.format_application_summary
  simp only [pyGetD_of_isObj a h0,
    pyGetD_of_isObj (jfieldD a "metadata" (.obj [])) h1,
    pyGetD_of_isObj (jfieldD a "spec" (.obj [])) h2,
    pyGetD_of_isObj (jfieldD a "status" (.obj [])) h3,
    pyGetD_of_isObj (jfieldD (jfieldD a "spec" (.obj [])) "source" (.obj [])) h4,
    pyGetD_of_isObj (jfieldD (jfieldD a "status" (.obj [])) "sync" (.obj [])) h5,
    pyGetD_of_isObj (jfieldD (jfieldD a "status" (.obj [])) "health" (.obj [])) h6,
    ebind_ok]
  rfl

/-- Every successful outcome of the `/mcp` `try` block is a result envelope. -/
theorem mcp_main_ok_result (rm : Remote) (body : JVal) (r : HttpServer.RpcResponse)
    (h : HttpServer.mcp_main rm body = .ok r) : ∃ i res, r = .result i res := by
  unfold HttpServer.mcp_main at h
  cases hm : pyGetD body "method" (.str "unknown") with
  | error e => rw [hm] at h; exact absurd h (by intro hh; cases hh)
  | ok method =>
    rw [hm] at h
    rw [ebind_ok] at h
    split at h
    · cases hid : pyGetD body "id" .null with
      | error e => rw [hid] at h; exact absurd h (by intro hh; cases hh)
      | ok i => rw [hid, ebind_ok] at h; exact ⟨i, _, (Except.ok.inj h).symm⟩
    · split at h
      · cases hp : pyGetD body "params" (.obj []) with
        | error e => rw [hp] at h; exact absurd h (by intro hh; cases hh)
        | ok params =>
          rw [hp, ebind_ok] at h
          cases hn : pyGetD params "name" .null with
          | error e => rw [hn] at h; exact absurd h (by intro hh; cases hh)
          | ok tool_name =>
            rw [hn, ebind_ok] at h
            cases ha : pyGetD params "arguments" (.obj []) with
            | error e => rw [ha] at h; exact absurd h (by intro hh; cases hh)
            | ok arguments =>
              rw [ha, ebind_ok] at h
              cases hid : pyGetD body "id" .null with
              | error e => rw [hid] at h; exact absurd h (by intro hh; cases hh)
              | ok i => rw [hid, ebind_ok] at h; exact ⟨i, _, (Except.ok.inj h).symm⟩
      · split at h
        · cases hid : pyGetD body "id" .null with
          | error e => rw [hid] at h; exact absurd h (by intro hh; cases hh)
          | ok i => rw [hid, ebind_ok] at h; exact ⟨i, _, (Except.ok.inj h).symm⟩
        · cases hid : pyGetD body "id" .null with
          | error e => rw [hid] at h; exact absurd h (by intro hh; cases hh)
          | ok i => rw [hid, ebind_ok] at h; exact ⟨i, _, (Except.ok.inj h).symm⟩

theorem synctext_ne_nohist (x : String) :
    ¬ ("Sync history for " ++ x = "No sync history found") := by
  intro h
  have hd := congrArg String.data h
  rw [String.data_append] at hd
  rw [show "Sync history for ".data =
    ['S', 'y', 'n', 'c', ' ', 'h', 'i', 's', 't', 'o', 'r', 'y', ' ', 'f', 'o', 'r', ' ']
    from rfl] at hd
  rw [show "No sync history found".data =
    ['N', 'o', ' ', 's', 'y', 'n', 'c', ' ', 'h', 'i', 's', 't', 'o', 'r', 'y', ' ',
     'f', 'o', 'u', 'n', 'd'] from rfl] at hd
  simp at hd

/-!
## Claim theorems
-/

/-- Claim C7: the two transports' dispatchers are functionally identical — for
every tool name, every argument value and every remote behaviour (including
raised exceptions), the HTTP transport's `call_tool_impl` produces exactly the
stdio transport's `call_tool` blocks rendered as `{"type", "text"}` dicts: same
count, same type tag, same text. -/
theorem claim_C7_thm (rm : Remote) (name : String) (arguments : JVal) :
    HttpServer.call_tool_impl rm (.str name) arguments =
      List.map tcJson (Server.call_tool rm name arguments) := by
  unfold HttpServer.call_tool_impl Server.call_tool
  rw [call_tool_impl_body_eq]
  cases Server.call_tool_body rm name arguments with
  | ok blocks => rfl
  | error e => rfl

/-- Claim C6: the tool catalog has exactly seven descriptors, the HTTP
transport's catalog is field-for-field identical to the stdio transport's
(name, description and full argument schema), and a `tools/list` request on
the HTTP endpoint returns that catalog verbatim in a result envelope. -/
theorem claim_C6_thm :
    Server.list_tools.length = 7 ∧
    HttpServer.list_tools_impl = Server.list_tools.map
      (fun t => .obj [("name", .str t.name), ("description", .str t.description),
        ("inputSchema", t.inputSchema)]) ∧
    (∀ (rm : Remote) (i : JVal),
      HttpServer.mcp_endpoint rm (.ok (.obj [("method", .str "tools/list"), ("id", i)])) =
        .ok (.result i (.obj [("tools", .arr HttpServer.list_tools_impl)]))) :=
  ⟨rfl, rfl, fun _ _ => rfl⟩

/-- Claim C10: an empty-string revision is falsy, so `sync_application` with
`revision=""` issues the same single POST as with no revision at all (no
`revision` key in the body); likewise `list_applications` with an empty-string
project or selector omits that query parameter, identically to omitting the
filter. -/
theorem claim_C10_thm (rm : Remote) (name prune dry_run project selector : JVal) :
    ArgoCDClient.sync_application rm name prune dry_run (.str "") =
      ArgoCDClient.sync_application rm name prune dry_run .null ∧
    (ArgoCDClient.sync_application rm name prune dry_run (.str "")).1 =
      [⟨"POST", "/applications/" ++ pyStr name ++ "/sync", [],
        some [("prune", prune), ("dryRun", dry_run)]⟩] ∧
    ArgoCDClient.list_applications rm (.str "") selector =
      ArgoCDClient.list_applications rm .null selector ∧
    ArgoCDClient.list_applications rm project (.str "") =
      ArgoCDClient.list_applications rm project .null ∧
    (ArgoCDClient.list_applications rm (.str "") (.str "")).1 =
      [⟨"GET", "/applications", [], none⟩] := by
  refine ⟨rfl, rfl, rfl, rfl, ?_⟩
  show (match (ArgoCDClient.request_raw rm "GET" "/applications" [] none) with
    | (log, .error e) => (log, Except.error e)
    | (log, .ok result) => (log, pyGetD result "items" (.arr []))).1 = _
  unfold ArgoCDClient.request_raw
  cases rm ⟨"GET", "/applications", [], none⟩ with
  | error e => rfl
  | ok result => rfl

/-- Claim C1, as stated, is false for an empty-string revision: supplying
`revision=""` to `sync_application` produces a body with no `"revision"` key,
not a body carrying `"revision": ""`. -/
theorem claim_C1_counterexample :
    ¬ ((ArgoCDClient.sync_application rmNull (.str "foo") (.bool false) (.bool false)
        (.str "")).1 =
      [⟨"POST", "/applications/foo/sync", [],
        some [("prune", .bool false), ("dryRun", .bool false), ("revision", .str "")]⟩]) := by
  decide

/-- Claim C1 (amended: a *non-empty* supplied revision): `sync_application`
issues exactly one POST to `/applications/{name}/sync`; with a non-empty
revision the JSON body is `{"prune", "dryRun", "revision"}`, without a revision
it is `{"prune", "dryRun"}`; and the dispatcher applies the defaults
`prune=False`, `dry_run=False`, `revision=None` when the arguments carry only
the name. -/
theorem claim_C1_thm (rm : Remote) (name : String) (prune dry_run : Bool) (r : String)
    (h : r ≠ "") :
    (ArgoCDClient.sync_application rm (.str name) (.bool prune) (.bool dry_run) (.str r)).1 =
      [⟨"POST", "/applications/" ++ name ++ "/sync", [],
        some [("prune", .bool prune), ("dryRun", .bool dry_run), ("revision", .str r)]⟩] ∧
    (ArgoCDClient.sync_application rm (.str name) (.bool prune) (.bool dry_run) .null).1 =
      [⟨"POST", "/applications/" ++ name ++ "/sync", [],
        some [("prune", .bool prune), ("dryRun", .bool dry_run)]⟩] ∧
    Server.call_tool_body rm "sync_application" (.obj [("name", .str name)]) =
      Except.bind
        (ArgoCDClient.sync_application rm (.str name) (.bool false) (.bool false) .null).2
        (fun result =>
          .ok [⟨"text", "Sync initiated for " ++ name ++ "\n\n" ++ jsonDumps result⟩]) := by
  refine ⟨?_, rfl, rfl⟩
  have ht : jTruthy (.str r) = true := by simp [jTruthy, h]
  simp [ArgoCDClient.sync_application, ArgoCDClient.request_raw, ht, pyStr]

/-- Witness for C1 at the spec's round-trip example. -/
theorem claim_C1_witness :
    ("abc123" : String) ≠ "" ∧
    (ArgoCDClient.sync_application rmNull (.str "foo") (.bool true) (.bool false)
        (.str "abc123")).1 =
      [⟨"POST", "/applications/foo/sync", [],
        some [("prune", .bool true), ("dryRun", .bool false), ("revision", .str "abc123")]⟩] :=
  ⟨by decide, (claim_C1_thm rmNull "foo" true false "abc123" (by decide)).1⟩

theorem pyGetD_obj (fs : List (String × JVal)) (k : String) (d : JVal) :
    pyGetD (.obj fs) k d = .ok ((List.lookup k fs).getD d) := rfl

/-- The `/mcp` handler forwards a successful `try` block outcome unchanged. -/
theorem mcp_endpoint_of_main_ok (rm : Remote) (body : JVal) (r : HttpServer.RpcResponse)
    (h : HttpServer.mcp_main rm body = .ok r) :
    HttpServer.mcp_endpoint rm (.ok body) = .ok r := by
  have hstep : HttpServer.mcp_endpoint rm (.ok body) =
      (match HttpServer.mcp_main rm body with
       | .ok resp => Except.ok resp
       | .error e =>
         if jTruthy body then
           match pyGetD body "id" .null with
           | .error e2 => Except.error e2
           | .ok i => Except.ok (.rpcError i (-32603) e)
         else Except.ok (.rpcError .null (-32603) e)) := rfl
  rw [hstep, h]

/-- A `tools/call` request with an argument-object `params` is answered with a
result envelope wrapping the dispatcher's blocks. -/
theorem mcp_endpoint_toolscall (rm : Remote) (fields pfs : List (String × JVal))
    (h1 : List.lookup "method" fields = some (.str "tools/call"))
    (h2 : List.lookup "params" fields = some (.obj pfs)) :
    HttpServer.mcp_endpoint rm (.ok (.obj fields)) =
      .ok (.result ((List.lookup "id" fields).getD .null)
        (.obj [("content", .arr (HttpServer.call_tool_impl rm
          ((List.lookup "name" pfs).getD .null)
          ((List.lookup "arguments" pfs).getD (.obj []))))])) := by
  apply mcp_endpoint_of_main_ok
  unfold HttpServer.mcp_main
  rw [pyGetD_obj fields "method" (.str "unknown"), h1,
    pyGetD_obj fields "params" (.obj []), h2]
  rfl

/-- Claim C3: any exception raised during dispatch — a missing required
argument, a remote client failure, or anything else — is caught by the
dispatcher's catch-all and converted into the single text block
`"Error: {message}"`, in both transports; dispatch itself is total, and a
`tools/call` request on the HTTP endpoint is answered with a successful result
envelope, never a JSON-RPC error. -/
theorem claim_C3_thm (rm : Remote) (name : String) (jname arguments : JVal) (e : String) :
    (Server.call_tool_body rm name arguments = .error e →
      Server.call_tool rm name arguments = [⟨"text", "Error: " ++ e⟩]) ∧
    (HttpServer.call_tool_impl_body rm jname arguments = .error e →
      HttpServer.call_tool_impl rm jname arguments = [HttpServer.jblock ("Error: " ++ e)]) ∧
    (∀ (fields pfs : List (String × JVal)),
      List.lookup "method" fields = some (.str "tools/call") →
      List.lookup "params" fields = some (.obj pfs) →
      isResultEnvelope (HttpServer.mcp_endpoint rm (.ok (.obj fields))) = true) := by
  refine ⟨?_, ?_, ?_⟩
  · intro h
    unfold Server.call_tool
    rw [h]
  · intro h
    unfold HttpServer.call_tool_impl
    rw [h]
  · intro fields pfs h1 h2
    rw [mcp_endpoint_toolscall rm fields pfs h1 h2]
    rfl

/-- Witness for C3: a missing required argument (`KeyError`), a remote 404
failure during `get_application`, and the successful envelope on the HTTP
endpoint. -/
theorem claim_C3_witness :
    Server.call_tool rmBoom "get_application" (.obj []) =
      [⟨"text", "Error: \x27name\x27"⟩] ∧
    HttpServer.call_tool_impl rmBoom (.str "get_application")
        (.obj [("name", .str "guestbook")]) =
      [HttpServer.jblock ("Error: Client error \x27404 Not Found\x27 for url")] ∧
    isResultEnvelope (HttpServer.mcp_endpoint rmBoom (.ok (.obj
      [("method", .str "tools/call"),
       ("params", .obj [("name", .str "get_application"),
         ("arguments", .obj [("name", .str "guestbook")])])]))) = true :=
  ⟨(claim_C3_thm rmBoom "get_application" .null (.obj []) "\x27name\x27").1 rfl,
   (claim_C3_thm rmBoom "get_application" (.str "get_application")
     (.obj [("name", .str "guestbook")]) "Client error \x27404 Not Found\x27 for url").2.1 rfl,
   (claim_C3_thm rmBoom "get_application" .null .null "").2.2
     [("method", .str "tools/call"),
      ("params", .obj [("name", .str "get_application"),
        ("arguments", .obj [("name", .str "guestbook")])])]
     [("name", .str "get_application"), ("arguments", .obj [("name", .str "guestbook")])]
     rfl rfl⟩

/-- Claim C4: a tool name outside the seven catalogued ones is answered by both
dispatchers with the single text block `"Unknown tool: {tool_name}"`, and the
enclosing `tools/call` request on the HTTP endpoint is answered with a
successful result envelope carrying that block, never a JSON-RPC error. -/
theorem claim_C4_thm (rm : Remote) (name : String)
    (h : ¬ name ∈ Server.list_tools.map MCPTool.name) :
    (∀ arguments : JVal, Server.call_tool rm name arguments =
      [⟨"text", "Unknown tool: " ++ name⟩]) ∧
    (∀ jargs : JVal, HttpServer.call_tool_impl rm (.str name) jargs =
      [HttpServer.jblock ("Unknown tool: " ++ name)]) ∧
    (∀ (fields pfs : List (String × JVal)),
      List.lookup "method" fields = some (.str "tools/call") →
      List.lookup "params" fields = some (.obj pfs) →
      List.lookup "name" pfs = some (.str name) →
      List.lookup "arguments" pfs = some (.obj []) →
      HttpServer.mcp_endpoint rm (.ok (.obj fields)) =
        .ok (.result ((List.lookup "id" fields).getD .null)
          (.obj [("content", .arr [HttpServer.jblock ("Unknown tool: " ++ name)])]))) := by
  have hmap : Server.list_tools.map MCPTool.name =
      ["list_applications", "get_application", "sync_application",
       "get_application_manifests", "get_sync_history", "rollback_application",
       "list_projects"] := rfl
  rw [hmap] at h
  simp only [List.mem_cons, List.not_mem_nil, or_false, not_or] at h
  obtain ⟨e1, e2, e3, e4, e5, e6, e7⟩ := h
  have himpl : ∀ jargs : JVal, HttpServer.call_tool_impl rm (.str name) jargs =
      [HttpServer.jblock ("Unknown tool: " ++ name)] := by
    intro jargs
    simp [HttpServer.call_tool_impl, HttpServer.call_tool_impl_body, HttpServer.jEqStr,
      beq_iff_eq, e1, e2, e3, e4, e5, e6, e7, pyStr]
  refine ⟨?_, himpl, ?_⟩
  · intro arguments
    simp [Server.call_tool, Server.call_tool_body, beq_iff_eq, e1, e2, e3, e4, e5, e6, e7]
  · intro fields pfs h1 h2 h3 h4
    rw [mcp_endpoint_toolscall rm fields pfs h1 h2, h3]
    rw [show (Option.getD (some (JVal.str name)) JVal.null) = JVal.str name from rfl]
    rw [himpl]

/-- Witness for C4 at the spec's example tool name `"frobnicate"`. -/
theorem claim_C4_witness :
    (¬ "frobnicate" ∈ Server.list_tools.map MCPTool.name) ∧
    Server.call_tool rmNull "frobnicate" (.obj []) =
      [⟨"text", "Unknown tool: frobnicate"⟩] ∧
    HttpServer.mcp_endpoint rmNull (.ok (.obj
      [("method", .str "tools/call"), ("id", .num 3),
       ("params", .obj [("name", .str "frobnicate"), ("arguments", .obj [])])])) =
      .ok (.result (.num 3)
        (.obj [("content", .arr [HttpServer.jblock "Unknown tool: frobnicate"])])) :=
  ⟨by decide,
   (claim_C4_thm rmNull "frobnicate" (by decide)).1 (.obj []),
   (claim_C4_thm rmNull "frobnicate" (by decide)).2.2
     [("method", .str "tools/call"), ("id", .num 3),
      ("params", .obj [("name", .str "frobnicate"), ("arguments", .obj [])])]
     [("name", .str "frobnicate"), ("arguments", .obj [])] rfl rfl rfl rfl⟩

theorem envMissing_iff (o : Option String) : envMissing o ↔ optStrTruthy o = false := by
  cases o with
  | none => simp [envMissing, optStrTruthy]
  | some s => simp [envMissing, optStrTruthy]

/-- Claim C9: configuration loading fails exactly when the server host or the
bearer token is absent or empty; `from_env` raises an error naming the missing
variable; the stdio transport exits with a diagnostic and the HTTP startup hook
fails precisely in that case; with both present `from_env` succeeds, and with
`ARGOCD_INSECURE` unset the insecure flag defaults to false. -/
theorem claim_C9_thm (env : Env) :
    ((∃ e, ArgoCDConfig.from_env env = .error e) ↔
      (envMissing (getenv env "ARGOCD_SERVER") ∨ envMissing (getenv env "ARGOCD_TOKEN"))) ∧
    (envMissing (getenv env "ARGOCD_SERVER") →
      ArgoCDConfig.from_env env = .error "ARGOCD_SERVER environment variable is required") ∧
    (¬ envMissing (getenv env "ARGOCD_SERVER") →
      envMissing (getenv env "ARGOCD_TOKEN") →
      ArgoCDConfig.from_env env = .error "ARGOCD_TOKEN environment variable is required") ∧
    (∀ e, ArgoCDConfig.from_env env = .error e →
      Server.create_server env = .exited ("Configuration error: " ++ e) ∧
      HttpServer.startup_event env = .error e) ∧
    (∀ cfg, ArgoCDConfig.from_env env = .ok cfg →
      Server.create_server env = .serving cfg ∧
      HttpServer.startup_event env = .ok cfg) ∧
    (∀ s t, getenv env "ARGOCD_SERVER" = some s → s ≠ "" →
      getenv env "ARGOCD_TOKEN" = some t → t ≠ "" →
      getenv env "ARGOCD_INSECURE" = none →
      ArgoCDConfig.from_env env = .ok ⟨s, t, false⟩) := by
  have btrue : ∀ b : Bool, ¬ b = false → b = true := by decide
  have hP2 : envMissing (getenv env "ARGOCD_SERVER") →
      ArgoCDConfig.from_env env = .error "ARGOCD_SERVER environment variable is required" := by
    intro hm
    have hs := (envMissing_iff _).mp hm
    unfold ArgoCDConfig.from_env
    simp [hs]
  have hP3 : ¬ envMissing (getenv env "ARGOCD_SERVER") →
      envMissing (getenv env "ARGOCD_TOKEN") →
      ArgoCDConfig.from_env env = .error "ARGOCD_TOKEN environment variable is required" := by
    intro hns hm
    have hs := btrue _ (fun hfalse => hns ((envMissing_iff _).mpr hfalse))
    have ht := (envMissing_iff _).mp hm
    unfold ArgoCDConfig.from_env
    simp [hs, ht]
  have hok : ¬ envMissing (getenv env "ARGOCD_SERVER") →
      ¬ envMissing (getenv env "ARGOCD_TOKEN") →
      ArgoCDConfig.from_env env = .ok ⟨(getenv env "ARGOCD_SERVER").getD "",
        (getenv env "ARGOCD_TOKEN").getD "",
        pyLower ((getenv env "ARGOCD_INSECURE").getD "false") == "true"⟩ := by
    intro h1 h2
    have b1 := btrue _ (fun hfalse => h1 ((envMissing_iff _).mpr hfalse))
    have b2 := btrue _ (fun hfalse => h2 ((envMissing_iff _).mpr hfalse))
    unfold ArgoCDConfig.from_env
    simp [b1, b2]
  refine ⟨⟨?_, ?_⟩, hP2, hP3, ?_, ?_, ?_⟩
  · rintro ⟨e, he⟩
    by_contra hno
    push_neg at hno
    rw [hok hno.1 hno.2] at he
    cases he
  · rintro (hm | hm)
    · exact ⟨_, hP2 hm⟩
    · by_cases hs : envMissing (getenv env "ARGOCD_SERVER")
      · exact ⟨_, hP2 hs⟩
      · exact ⟨_, hP3 hs hm⟩
  · intro e he
    constructor
    · unfold Server.create_server
      rw [he]
    · exact he
  · intro cfg hcfg
    constructor
    · unfold Server.create_server
      rw [hcfg]
    · exact hcfg
  · intro s t hs hs' ht ht' hins
    have hfalse : ((pyLower "false" == "true") : Bool) = false := by decide
    unfold ArgoCDConfig.from_env
    simp [hs, ht, hins, optStrTruthy, hs', ht', hfalse]

/-- Witness for C9: a complete environment succeeds with `insecure = false`;
an empty environment makes the stdio transport exit with the diagnostic naming
`ARGOCD_SERVER`. -/
theorem claim_C9_witness :
    ArgoCDConfig.from_env
        [("ARGOCD_SERVER", "argocd.example.com"), ("ARGOCD_TOKEN", "token123")] =
      .ok ⟨"argocd.example.com", "token123", false⟩ ∧
    Server.create_server [] =
      .exited "Configuration error: ARGOCD_SERVER environment variable is required" :=
  ⟨(claim_C9_thm _).2.2.2.2.2 "argocd.example.com" "token123" rfl (by decide) rfl
     (by decide) rfl,
   ((claim_C9_thm []).2.2.2.1 "ARGOCD_SERVER environment variable is required"
     ((claim_C9_thm []).2.1 (Or.inl rfl))).1⟩

/-- Claim C5: `get_sync_history` is derived from `get_application` — it issues
exactly that single GET request — and extracts `status.history`, yielding the
empty sequence when `status` or `history` is absent; the dispatcher answers
with the single block `"No sync history found"` exactly when the extracted
sequence is empty. -/
theorem claim_C5_thm (rm : Remote) (nm : JVal) :
    (ArgoCDClient.get_sync_history rm nm).1 = (ArgoCDClient.get_application rm nm).1 ∧
    (ArgoCDClient.get_sync_history rm nm).1 =
      [⟨"GET", "/applications/" ++ pyStr nm, [], none⟩] ∧
    (∀ fields, (ArgoCDClient.get_application rm nm).2 = .ok (.obj fields) →
      (List.lookup "status" fields = none →
        (ArgoCDClient.get_sync_history rm nm).2 = .ok (.arr [])) ∧
      (∀ sfs, List.lookup "status" fields = some (.obj sfs) →
        List.lookup "history" sfs = none →
        (ArgoCDClient.get_sync_history rm nm).2 = .ok (.arr [])) ∧
      (∀ sfs hv, List.lookup "status" fields = some (.obj sfs) →
        List.lookup "history" sfs = some hv →
        (ArgoCDClient.get_sync_history rm nm).2 = .ok hv)) ∧
    (∀ (afs : List (String × JVal)) (hs : List JVal),
      List.lookup "name" afs = some nm →
      (ArgoCDClient.get_sync_history rm nm).2 = .ok (.arr hs) →
      (Server.call_tool rm "get_sync_history" (.obj afs) =
          [⟨"text", "No sync history found"⟩] ↔ hs = [])) := by
  refine ⟨?_, ?_, ?_, ?_⟩
  · unfold ArgoCDClient.get_sync_history
    rcases hga : ArgoCDClient.get_application rm nm with ⟨log, r⟩
    cases r <;> rfl
  · unfold ArgoCDClient.get_sync_history ArgoCDClient.get_application ArgoCDClient.request_raw
    cases rm ⟨"GET", "/applications/" ++ pyStr nm, [], none⟩ <;> rfl
  · intro fields happ
    have hsync : ArgoCDClient.get_sync_history rm nm =
        ([⟨"GET", "/applications/" ++ pyStr nm, [], none⟩],
          pyGetD ((List.lookup "status" fields).getD (.obj [])) "history" (.arr [])) := by
      unfold ArgoCDClient.get_sync_history ArgoCDClient.get_application ArgoCDClient.request_raw
      rw [show rm ⟨"GET", "/applications/" ++ pyStr nm, [], none⟩ = .ok (.obj fields) from happ]
      rfl
    refine ⟨?_, ?_, ?_⟩
    · intro h0
      rw [hsync]
      show pyGetD ((List.lookup "status" fields).getD (.obj [])) "history" (.arr []) =
        .ok (.arr [])
      rw [h0]
      rfl
    · intro sfs hst hh
      rw [hsync]
      show pyGetD ((List.lookup "status" fields).getD (.obj [])) "history" (.arr []) =
        .ok (.arr [])
      rw [hst]
      show Except.ok ((List.lookup "history" sfs).getD (.arr [])) = .ok (.arr [])
      rw [hh]
      rfl
    · intro sfs hv hst hh
      rw [hsync]
      show pyGetD ((List.lookup "status" fields).getD (.obj [])) "history" (.arr []) = .ok hv
      rw [hst]
      show Except.ok ((List.lookup "history" sfs).getD (.arr [])) = .ok hv
      rw [hh]
      rfl
  · intro afs hs hname hhist
    have hsub : pySub (.obj afs) "name" = .ok nm := by simp [pySub, hname]
    have hct : Server.call_tool rm "get_sync_history" (.obj afs) =
        (match Server.call_tool_body rm "get_sync_history" (.obj afs) with
         | .ok blocks => blocks
         | .error e => [⟨"text", "Error: " ++ e⟩]) := rfl
    have hbody : Server.call_tool_body rm "get_sync_history" (.obj afs) =
        Except.bind (pySub (.obj afs) "name") (fun nm0 =>
          Except.bind (ArgoCDClient.get_sync_history rm nm0).2 (fun history =>
            if jTruthy history = false then .ok [⟨"text", "No sync history found"⟩]
            else
              Except.bind (pySub (.obj afs) "name") fun nm2 =>
              Except.bind (pyIter history) fun entries =>
              Except.bind (textFold Server.histItemText entries
                ("Sync history for " ++ pyStr nm2 ++ ":\n\n")) fun summary =>
              .ok [⟨"text", summary⟩])) := rfl
    rw [hct, hbody]
    simp only [hsub, ebind_ok]
    rw [hhist]
    simp only [ebind_ok]
    cases hs with
    | nil => exact iff_of_true rfl rfl
    | cons h0 tl =>
      simp only [show pyIter (.arr (h0 :: tl)) = .ok (h0 :: tl) from rfl, ebind_ok]
      apply iff_of_false
      · cases htf : textFold Server.histItemText (h0 :: tl)
            ("Sync history for " ++ pyStr nm ++ ":\n\n") with
        | error e =>
          intro hh
          have hh2 : [TextContent.mk "text" ("Error: " ++ e)] =
              [TextContent.mk "text" "No sync history found"] := hh
          exact err_text_ne_nohist e (congrArg TextContent.text (List.cons.inj hh2).1)
        | ok summary =>
          intro hh
          have hh2 : [TextContent.mk "text" summary] =
              [TextContent.mk "text" "No sync history found"] := hh
          obtain ⟨t, ht⟩ := textFold_extends Server.histItemText (h0 :: tl) _ summary htf
          have hsummary : summary = "No sync history found" :=
            congrArg TextContent.text (List.cons.inj hh2).1
          rw [ht, String.append_assoc, String.append_assoc] at hsummary
          exact synctext_ne_nohist _ hsummary
      · simp

/-- Witness for C5: an application whose status has no `history` field yields
the empty sequence and the `"No sync history found"` block. -/
theorem claim_C5_witness :
    (ArgoCDClient.get_sync_history (rmApp (.obj [("metadata", .obj [])]))
      (.str "guestbook")).2 = .ok (.arr []) ∧
    Server.call_tool (rmApp (.obj [("metadata", .obj [])])) "get_sync_history"
      (.obj [("name", .str "guestbook")]) = [⟨"text", "No sync history found"⟩] :=
  ⟨((claim_C5_thm (rmApp (.obj [("metadata", .obj [])])) (.str "guestbook")).2.2.1
      [("metadata", .obj [])] rfl).1 rfl,
   ((claim_C5_thm (rmApp (.obj [("metadata", .obj [])])) (.str "guestbook")).2.2.2
      [("name", .str "guestbook")] [] rfl rfl).mpr rfl⟩

/-- Claim C2, as stated, is false in one respect: the per-application summary
block has seven `Field: value` lines (Application, Namespace, Repository, Path,
Revision, Sync Status, Health Status), not six.  At the empty application
object every field is `"unknown"` and the block's non-empty line count is 7. -/
theorem claim_C2_counterexample :
    (match Server.format_application_summary (.obj []) with
     | .ok s => ((strLines s).filter (fun l => l ≠ "")).length
     | .error _ => 0) = 7 ∧
    ¬ ((match Server.format_application_summary (.obj []) with
       | .ok s => ((strLines s).filter (fun l => l ≠ "")).length
       | .error _ => 0) = 6) ∧
    Server.call_tool (rmItems [.obj []]) "list_applications" (.obj []) =
      [⟨"text", "Found 1 application(s):\n\nApplication: unknown\nNamespace: unknown\nRepository: unknown\nPath: unknown\nRevision: unknown\nSync Status: unknown\nHealth Status: unknown\n\n"⟩] :=
  ⟨by decide, by decide, rfl⟩

/-- Claim C2 (amended: *seven*-line blocks): dispatching `list_applications`
over well-formed application JSON returns the single block
`"No applications found"` when the client's sequence is empty, and otherwise the
`"Found {n} application(s):"` header, a blank line, and one seven-line summary
block per application (each followed by a separating newline), with `"unknown"`
substituted for every absent field. -/
theorem claim_C2_thm (rm : Remote) (afs : List (String × JVal)) (apps : List JVal)
    (h1 : (ArgoCDClient.list_applications rm
        ((List.lookup "project" afs).getD .null)
        ((List.lookup "selector" afs).getD .null)).2 = .ok (.arr apps))
    (h2 : ∀ a ∈ apps, wfApp a = true) :
    Server.call_tool rm "list_applications" (.obj afs) =
      [⟨"text", specListApplicationsText apps⟩] := by
  have hct : Server.call_tool rm "list_applications" (.obj afs) =
      (match Server.call_tool_body rm "list_applications" (.obj afs) with
       | .ok blocks => blocks
       | .error e => [⟨"text", "Error: " ++ e⟩]) := rfl
  have hbody : Server.call_tool_body rm "list_applications" (.obj afs) =
      Except.bind (pyGetD (.obj afs) "project" .null) (fun project =>
      Except.bind (pyGetD (.obj afs) "selector" .null) (fun selector =>
      Except.bind (ArgoCDClient.list_applications rm project selector).2 (fun apps0 =>
      if jTruthy apps0 = false then .ok [⟨"text", "No applications found"⟩]
      else
        Except.bind (pyLen apps0) fun n =>
        Except.bind (pyIter apps0) fun items =>
        Except.bind (textFold Server.appItemText items
          ("Found " ++ toString n ++ " application(s):\n\n")) fun summary =>
        .ok [⟨"text", summary⟩]))) := rfl
  rw [hct, hbody]
  simp only [pyGetD_obj, ebind_ok]
  rw [h1]
  simp only [ebind_ok]
  cases apps with
  | nil => rfl
  | cons a0 rest =>
    have hall : ∀ a ∈ a0 :: rest, Server.appItemText a = .ok (specAppBlock a ++ "\n") := by
      intro a ha
      unfold Server.appItemText
      rw [format_eq_spec a (h2 a ha)]
    have hfold := textFold_ok Server.appItemText (fun a => specAppBlock a ++ "\n")
      (a0 :: rest) hall ("Found " ++ toString (a0 :: rest).length ++ " application(s):\n\n")
    simp only [show pyLen (.arr (a0 :: rest)) = .ok (a0 :: rest).length from rfl,
      show pyIter (.arr (a0 :: rest)) = .ok (a0 :: rest) from rfl, ebind_ok]
    rw [hfold]
    rfl

/-- Witness for C2 at two applications, one fully populated and one empty. -/
theorem claim_C2_witness :
    Server.call_tool (rmItems
      [.obj [("metadata", .obj [("name", .str "guestbook"), ("namespace", .str "default")]),
        ("spec", .obj [("source", .obj [("repoURL", .str "https://example.com/repo.git"),
          ("path", .str "app"), ("targetRevision", .str "HEAD")])]),
        ("status", .obj [("sync", .obj [("status", .str "Synced")]),
          ("health", .obj [("status", .str "Healthy")])])],
       .obj []]) "list_applications" (.obj []) =
      [⟨"text", specListApplicationsText
        [.obj [("metadata", .obj [("name", .str "guestbook"), ("namespace", .str "default")]),
          ("spec", .obj [("source", .obj [("repoURL", .str "https://example.com/repo.git"),
            ("path", .str "app"), ("targetRevision", .str "HEAD")])]),
          ("status", .obj [("sync", .obj [("status", .str "Synced")]),
            ("health", .obj [("status", .str "Healthy")])])],
         .obj []]⟩] :=
  claim_C2_thm (rmItems
      [.obj [("metadata", .obj [("name", .str "guestbook"), ("namespace", .str "default")]),
        ("spec", .obj [("source", .obj [("repoURL", .str "https://example.com/repo.git"),
          ("path", .str "app"), ("targetRevision", .str "HEAD")])]),
        ("status", .obj [("sync", .obj [("status", .str "Synced")]),
          ("health", .obj [("status", .str "Healthy")])])],
       .obj []]) []
    [.obj [("metadata", .obj [("name", .str "guestbook"), ("namespace", .str "default")]),
      ("spec", .obj [("source", .obj [("repoURL", .str "https://example.com/repo.git"),
        ("path", .str "app"), ("targetRevision", .str "HEAD")])]),
      ("status", .obj [("sync", .obj [("status", .str "Synced")]),
        ("health", .obj [("status", .str "Healthy")])])],
     .obj []]
    rfl (by decide)

/-- Claim C8, as stated, is false for the "missing method" case: a parsed body
with no `method` key does not produce a JSON-RPC error envelope — `method`
defaults to `"unknown"` and the endpoint answers with the generic
`{"status": "ok", "method": "unknown"}` *result* envelope. -/
theorem claim_C8_counterexample :
    HttpServer.mcp_endpoint rmNull (.ok (.obj [("id", .num 1)])) =
      .ok (.result (.num 1) (.obj [("status", .str "ok"), ("method", .str "unknown")])) ∧
    isResultEnvelope (HttpServer.mcp_endpoint rmNull (.ok (.obj [("id", .num 1)]))) = true :=
  ⟨rfl, rfl⟩

/-- Claim C8 (amended): for object-shaped request bodies, unparseable JSON
produces the JSON-RPC error envelope `{-32603, message}` with a null id; a
missing `method` key produces a *successful* generic acknowledgement (not an
error envelope); any exception raised while handling the request produces the
JSON-RPC error envelope `{-32603, message}` with the body's id; and every
non-raising request produces a successful result envelope. -/
theorem claim_C8_thm (rm : Remote) :
    (∀ e, HttpServer.mcp_endpoint rm (.error e) = .ok (.rpcError .null (-32603) e)) ∧
    (∀ fields : List (String × JVal), List.lookup "method" fields = none →
      HttpServer.mcp_endpoint rm (.ok (.obj fields)) =
        .ok (.result ((List.lookup "id" fields).getD .null)
          (.obj [("status", .str "ok"), ("method", .str "unknown")]))) ∧
    (∀ (fields : List (String × JVal)) e,
      HttpServer.mcp_main rm (.obj fields) = .error e →
      HttpServer.mcp_endpoint rm (.ok (.obj fields)) =
        .ok (.rpcError ((List.lookup "id" fields).getD .null) (-32603) e)) ∧
    (∀ (fields : List (String × JVal)) r,
      HttpServer.mcp_main rm (.obj fields) = .ok r →
      HttpServer.mcp_endpoint rm (.ok (.obj fields)) = .ok r ∧
        isResultEnvelope (.ok r) = true) := by
  refine ⟨fun e => rfl, ?_, ?_, ?_⟩
  · intro fields h
    apply mcp_endpoint_of_main_ok
    unfold HttpServer.mcp_main
    rw [pyGetD_obj fields "method" (.str "unknown"), h]
    rfl
  · intro fields e h
    cases fields with
    | nil =>
      have hnil : HttpServer.mcp_main rm (.obj []) =
          .ok (.result .null (.obj [("status", .str "ok"), ("method", .str "unknown")])) := rfl
      rw [hnil] at h
      exact absurd h (by intro hh; cases hh)
    | cons f0 fs0 =>
      have hstep : HttpServer.mcp_endpoint rm (.ok (.obj (f0 :: fs0))) =
          (match HttpServer.mcp_main rm (.obj (f0 :: fs0)) with
           | .ok resp => Except.ok resp
           | .error e0 =>
             if jTruthy (.obj (f0 :: fs0)) then
               match pyGetD (.obj (f0 :: fs0)) "id" .null with
               | .error e2 => Except.error e2
               | .ok i => Except.ok (.rpcError i (-32603) e0)
             else Except.ok (.rpcError .null (-32603) e0)) := rfl
      rw [hstep, h]
      rfl
  · intro fields r h
    refine ⟨mcp_endpoint_of_main_ok rm (.obj fields) r h, ?_⟩
    obtain ⟨i, res, hr⟩ := mcp_main_ok_result rm (.obj fields) r h
    rw [hr]
    rfl

/-- Witness for C8: a JSON parse failure, a body with no method, and a
handling exception (non-dict `params`) at concrete inputs. -/
theorem claim_C8_witness :
    HttpServer.mcp_endpoint rmNull (.error "Expecting value: line 1 column 1 (char 0)") =
      .ok (.rpcError .null (-32603) "Expecting value: line 1 column 1 (char 0)") ∧
    HttpServer.mcp_endpoint rmNull (.ok (.obj [("id", .num 7)])) =
      .ok (.result (.num 7) (.obj [("status", .str "ok"), ("method", .str "unknown")])) ∧
    HttpServer.mcp_endpoint rmNull (.ok (.obj
      [("method", .str "tools/call"), ("params", .num 5), ("id", .num 9)])) =
      .ok (.rpcError (.num 9) (-32603) "\x27int\x27 object has no attribute \x27get\x27") :=
  ⟨(claim_C8_thm rmNull).1 "Expecting value: line 1 column 1 (char 0)",
   (claim_C8_thm rmNull).2.1 [("id", .num 7)] rfl,
   (claim_C8_thm rmNull).2.2.1
     [("method", .str "tools/call"), ("params", .num 5), ("id", .num 9)]
     "\x27int\x27 object has no attribute \x27get\x27" rfl⟩
